import Mathlib

/-!
Verification of the access-control mixins of `mult_mixins/mixins.py`
(`StaffMixin`, `SuperuserMixin`, `OwnerMixin`, `OwnerOrStaffMixin`), stated
against the policy abstraction of the specification (`StaffOnly`,
`SuperuserOnly`, `OwnerOnly`, `OwnerOrStaff`, each producing a
`PolicyVerdict`).

The embedding mirrors the Python source:
  * `request.user` is a Django user object: either `AnonymousUser`
    (whose `get_username()` is `""` and whose `is_staff`, `is_superuser`
    and `is_authenticated` attributes are fixed to `False`) or an
    authenticated model user (whose `is_authenticated` is always `True`);
  * `get_user_model().objects` is the table of existing usernames, and
    `objects.filter(username=v).exists()` is `usersFilterExists`;
  * `self.kwargs` is the URL-keyword dictionary, and `self.kwargs.get(k)`
    is `kwargsGet`, returning `none` when the key is absent;
  * each `test_func` is translated literally; the owner-based ones may
    raise `Http404`, rendered as the `Except.error` case carrying the
    interpolated message, and `OwnerOrStaffMixin.test_func` additionally
    returns the list of `logger.info` audit records it emitted;
  * `UserPassesTestMixin` dispatch with `raise_exception = True` maps a
    true test to an HTTP 200 (`allow`), a false test to `PermissionDenied`
    with the class's `permission_denied_message` (`denyForbidden`), and a
    propagating `Http404` to `denyNotFound`.
-/

namespace MultMixins

/-- A Django request user: either `AnonymousUser` or an authenticated model
user carrying its `username`, `is_staff` and `is_superuser` flags. -/
inductive PyUser where
  | anonymous
  | user (username : String) (staffFlag : Bool) (superuserFlag : Bool)
deriving DecidableEq

/-- Python `user.get_username()`: `AnonymousUser.username` is `""`. -/
def PyUser.get_username : PyUser → String
  | .anonymous => ""
  | .user u _ _ => u

/-- Python `user.is_staff`: always `False` on `AnonymousUser`. -/
def PyUser.is_staff : PyUser → Bool
  | .anonymous => false
  | .user _ s _ => s

/-- Python `user.is_superuser`: always `False` on `AnonymousUser`. -/
def PyUser.is_superuser : PyUser → Bool
  | .anonymous => false
  | .user _ _ s => s

/-- Python `user.is_authenticated`: `False` exactly on `AnonymousUser`. -/
def PyUser.is_authenticated : PyUser → Bool
  | .anonymous => false
  | .user _ _ _ => true

/-- The parts of `self.request` the mixins read: the user and the path. -/
structure Request where
  user : PyUser
  path : String
deriving DecidableEq

/-- The URL keyword arguments `self.kwargs`, as a key-value list. -/
abbrev Kwargs := List (String × String)

/-- Python `self.kwargs.get(key)`: the value at `key`, or `None`. -/
def kwargsGet (kwargs : Kwargs) (key : String) : Option String :=
  (kwargs.find? (fun p => p.1 == key)).map Prod.snd

/-- The usernames present in `get_user_model().objects`. -/
abbrev UserTable := List String

/-- Python `get_user_model().objects.filter(username=v).exists()`, where `v`
may be `None` (in which case no row with a non-null username matches). -/
def usersFilterExists (objects : UserTable) : Option String → Bool
  | none => false
  | some u => objects.contains u

/-- Python `==` between the `str` from `get_username()` and the
`Optional[str]` from `kwargs.get(...)`: `str == None` is `False`. -/
def pyStrEqOpt (s : String) : Option String → Bool
  | none => false
  | some t => s == t

/-- Python `str` interpolation of a possibly-`None` value: `None` prints as
the text `None`. -/
def optionRepr : Option String → String
  | none => "None"
  | some s => s

/-- The `Http404` message raised by the owner-based `test_func`s:
`"User \x27%(username)s\x27 does not exist."` interpolated with the looked-up
kwargs value. -/
def userDoesNotExistMessage (u : Option String) : String :=
  "User \x27" ++ optionRepr u ++ "\x27 does not exist."

/-- The verdict of a policy evaluation: HTTP 200, `PermissionDenied`
(HTTP 403) with its message, or `Http404` with its message. -/
inductive PolicyVerdict where
  | allow
  | denyForbidden (reason : String)
  | denyNotFound (reason : String)
deriving DecidableEq

/-- Whether a verdict is the `denyNotFound` one. -/
def PolicyVerdict.isDenyNotFound : PolicyVerdict → Bool
  | .denyNotFound _ => true
  | _ => false

/-- `UserPassesTestMixin` dispatch with `raise_exception = True`: a true
`test_func` lets the view answer 200, a false one raises `PermissionDenied`
with the class's `permission_denied_message`. -/
def dispatchTest (deniedMessage : String) (t : Bool) : PolicyVerdict :=
  if t then .allow else .denyForbidden deniedMessage

namespace StaffMixin

/-- `StaffMixin.permission_denied_message` from the source. -/
def permission_denied_message : String :=
  "You are not a staff user. You do not have the right to view this page."

/-- `StaffMixin.test_func`: `return self.request.user.is_staff`. -/
def test_func (request : Request) : Bool :=
  request.user.is_staff

end StaffMixin

namespace SuperuserMixin

/-- `SuperuserMixin.permission_denied_message` from the source. -/
def permission_denied_message : String :=
  "You are not a superuser user. You do not have the right to view this page."

/-- `SuperuserMixin.test_func`: `return self.request.user.is_superuser`. -/
def test_func (request : Request) : Bool :=
  request.user.is_superuser

end SuperuserMixin

/-- `OwnerMixin`: its one configuration attribute `owner_kwargs`, whose class
default is `None`. -/
structure OwnerMixin where
  owner_kwargs : Option String := none
deriving DecidableEq

/-- `OwnerMixin.permission_denied_message` from the source. -/
def OwnerMixin.permission_denied_message : String :=
  "You are not the owner of the page. You cannot view it."

/-- `OwnerMixin.get_owner_kwargs`: the configured `owner_kwargs`, defaulting
to `"username"` when it is `None`. -/
def OwnerMixin.get_owner_kwargs (m : OwnerMixin) : String :=
  match m.owner_kwargs with
  | none => "username"
  | some k => k

/-- `OwnerMixin.test_func`: raise `Http404` when no user with the looked-up
username exists, else return whether the logged user's name equals it. -/
def OwnerMixin.test_func (m : OwnerMixin) (objects : UserTable)
    (request : Request) (kwargs : Kwargs) : Except String Bool :=
  if ¬ usersFilterExists objects (kwargsGet kwargs m.get_owner_kwargs) then
    .error (userDoesNotExistMessage (kwargsGet kwargs m.get_owner_kwargs))
  else
    .ok (pyStrEqOpt request.user.get_username
      (kwargsGet kwargs m.get_owner_kwargs))

/-- `OwnerOrStaffMixin`: its one configuration attribute `owner_kwargs`,
whose class default is `None`. -/
structure OwnerOrStaffMixin where
  owner_kwargs : Option String := none
deriving DecidableEq

/-- `OwnerOrStaffMixin.permission_denied_message` from the source. -/
def OwnerOrStaffMixin.permission_denied_message : String :=
  "You are not the owner of the page nor a staff user. You cannot view it."

/-- `OwnerOrStaffMixin.get_owner_kwargs`: the configured `owner_kwargs`,
defaulting to `"username"` when it is `None`. -/
def OwnerOrStaffMixin.get_owner_kwargs (m : OwnerOrStaffMixin) : String :=
  match m.owner_kwargs with
  | none => "username"
  | some k => k

/-- An audit record emitted by `logger.info`: the accessing user's
`get_username()` and the request path interpolated into the message. -/
abbrev AuditLog := List (String × String)

/-- `OwnerOrStaffMixin.test_func`: raise `Http404` when no user with the
looked-up username exists; else true when the logged user is the owner; else
true with one `logger.info` audit record when the logged user is staff; else
false. The returned list is the audit records the call emitted. -/
def OwnerOrStaffMixin.test_func (m : OwnerOrStaffMixin) (objects : UserTable)
    (request : Request) (kwargs : Kwargs) : Except String (Bool × AuditLog) :=
  if ¬ usersFilterExists objects (kwargsGet kwargs m.get_owner_kwargs) then
    .error (userDoesNotExistMessage (kwargsGet kwargs m.get_owner_kwargs))
  else if pyStrEqOpt request.user.get_username
      (kwargsGet kwargs m.get_owner_kwargs) then
    .ok (true, [])
  else if request.user.is_staff then
    .ok (true, [(request.user.get_username, request.path)])
  else
    .ok (false, [])

/-- The `StaffOnly` policy: `StaffMixin` behind `UserPassesTestMixin`
dispatch. -/
def StaffOnly (request : Request) : PolicyVerdict :=
  dispatchTest StaffMixin.permission_denied_message
    (StaffMixin.test_func request)

/-- The `SuperuserOnly` policy: `SuperuserMixin` behind `UserPassesTestMixin`
dispatch. -/
def SuperuserOnly (request : Request) : PolicyVerdict :=
  dispatchTest SuperuserMixin.permission_denied_message
    (SuperuserMixin.test_func request)

/-- The `OwnerOnly` policy: `OwnerMixin` behind `UserPassesTestMixin`
dispatch, a propagating `Http404` becoming the not-found verdict. -/
def OwnerOnly (m : OwnerMixin) (objects : UserTable) (request : Request)
    (kwargs : Kwargs) : PolicyVerdict :=
  match m.test_func objects request kwargs with
  | .error msg => .denyNotFound msg
  | .ok t => dispatchTest OwnerMixin.permission_denied_message t

/-- The `OwnerOrStaff` policy: `OwnerOrStaffMixin` behind
`UserPassesTestMixin` dispatch, paired with the audit records the evaluation
emitted (none when `Http404` fires, since the raise precedes any logging). -/
def OwnerOrStaff (m : OwnerOrStaffMixin) (objects : UserTable)
    (request : Request) (kwargs : Kwargs) : PolicyVerdict × AuditLog :=
  match m.test_func objects request kwargs with
  | .error msg => (.denyNotFound msg, [])
  | .ok (t, records) =>
    (dispatchTest OwnerOrStaffMixin.permission_denied_message t, records)

/-- Closed form of `OwnerOnly`: the `Http404` branch first, then the
ownership comparison under `UserPassesTestMixin` dispatch. -/
theorem ownerOnly_spec (m : OwnerMixin) (objects : UserTable)
    (request : Request) (kwargs : Kwargs) :
    OwnerOnly m objects request kwargs =
      if usersFilterExists objects (kwargsGet kwargs m.get_owner_kwargs) then
        (if pyStrEqOpt request.user.get_username
            (kwargsGet kwargs m.get_owner_kwargs)
         then .allow else .denyForbidden OwnerMixin.permission_denied_message)
      else .denyNotFound
        (userDoesNotExistMessage (kwargsGet kwargs m.get_owner_kwargs)) := by
  unfold OwnerOnly OwnerMixin.test_func dispatchTest
  cases he : usersFilterExists objects (kwargsGet kwargs m.get_owner_kwargs) <;>
    simp [he]

/-- Closed form of `OwnerOrStaff`: the `Http404` branch first, then the
owner, staff and fallback branches with their audit records, under
`UserPassesTestMixin` dispatch. -/
theorem ownerOrStaff_spec (m : OwnerOrStaffMixin) (objects : UserTable)
    (request : Request) (kwargs : Kwargs) :
    OwnerOrStaff m objects request kwargs =
      if usersFilterExists objects (kwargsGet kwargs m.get_owner_kwargs) then
        (if pyStrEqOpt request.user.get_username
            (kwargsGet kwargs m.get_owner_kwargs) then (.allow, [])
         else if request.user.is_staff then
           (.allow, [(request.user.get_username, request.path)])
         else
           (.denyForbidden OwnerOrStaffMixin.permission_denied_message, []))
      else
        (.denyNotFound
          (userDoesNotExistMessage (kwargsGet kwargs m.get_owner_kwargs)),
         []) := by
  unfold OwnerOrStaff OwnerOrStaffMixin.test_func dispatchTest
  cases he : usersFilterExists objects (kwargsGet kwargs m.get_owner_kwargs)
  · simp [he]
  · cases hp : pyStrEqOpt request.user.get_username
        (kwargsGet kwargs m.get_owner_kwargs) <;>
      cases hs : request.user.is_staff <;> simp [he, hp, hs]

/-- C1: for every principal (the anonymous one included) and every owner
lookup whose value has no matching row in the user table, both `OwnerOnly`
and `OwnerOrStaff` answer `denyNotFound`; and `denyNotFound` is their answer
exactly when the row is missing, independently of the requesting user, so the
existence check precedes any authorization comparison. -/
theorem ownerPolicies_notFound_iff_owner_unknown
    (mo : OwnerMixin) (ms : OwnerOrStaffMixin) (objects : UserTable)
    (request : Request) (kwargs : Kwargs) :
    ((OwnerOnly mo objects request kwargs).isDenyNotFound =
      !usersFilterExists objects (kwargsGet kwargs mo.get_owner_kwargs)) ∧
    (usersFilterExists objects (kwargsGet kwargs mo.get_owner_kwargs) = false →
      OwnerOnly mo objects request kwargs =
        .denyNotFound
          (userDoesNotExistMessage (kwargsGet kwargs mo.get_owner_kwargs))) ∧
    ((OwnerOrStaff ms objects request kwargs).1.isDenyNotFound =
      !usersFilterExists objects (kwargsGet kwargs ms.get_owner_kwargs)) ∧
    (usersFilterExists objects (kwargsGet kwargs ms.get_owner_kwargs) = false →
      (OwnerOrStaff ms objects request kwargs).1 =
        .denyNotFound
          (userDoesNotExistMessage (kwargsGet kwargs ms.get_owner_kwargs))) := by
  rw [ownerOnly_spec, ownerOrStaff_spec]
  refine ⟨?_, ?_, ?_, ?_⟩
  · cases he : usersFilterExists objects (kwargsGet kwargs mo.get_owner_kwargs)
    · simp [he, PolicyVerdict.isDenyNotFound]
    · cases hp : pyStrEqOpt request.user.get_username
          (kwargsGet kwargs mo.get_owner_kwargs) <;>
        simp [he, hp, PolicyVerdict.isDenyNotFound]
  · intro he; simp [he]
  · cases he : usersFilterExists objects (kwargsGet kwargs ms.get_owner_kwargs)
    · simp [he, PolicyVerdict.isDenyNotFound]
    · cases hp : pyStrEqOpt request.user.get_username
          (kwargsGet kwargs ms.get_owner_kwargs) <;>
        cases hs : request.user.is_staff <;>
          simp [he, hp, hs, PolicyVerdict.isDenyNotFound]
  · intro he; simp [he]

/-- C2: when the looked-up owner exists in the user table, `OwnerOrStaff`
decides in order: `allow` when the requesting user's name equals the owner
value; else `allow` when the user is staff; else `denyForbidden` with the
not-the-owner-nor-staff `permission_denied_message` (the spec's reason "not
the owner nor staff"). -/
theorem ownerOrStaff_ordered_decision
    (m : OwnerOrStaffMixin) (objects : UserTable) (request : Request)
    (kwargs : Kwargs)
    (hex : usersFilterExists objects (kwargsGet kwargs m.get_owner_kwargs) =
      true) :
    (OwnerOrStaff m objects request kwargs).1 =
      if pyStrEqOpt request.user.get_username
          (kwargsGet kwargs m.get_owner_kwargs) then .allow
      else if request.user.is_staff then .allow
      else .denyForbidden OwnerOrStaffMixin.permission_denied_message := by
  rw [ownerOrStaff_spec]
  cases hp : pyStrEqOpt request.user.get_username
      (kwargsGet kwargs m.get_owner_kwargs) <;>
    cases hs : request.user.is_staff <;> simp [hex, hp, hs]

/-- C2 witness: a non-staff non-owner against an existing owner obtains
`denyForbidden` with the class's message. -/
theorem ownerOrStaff_ordered_decision_witness :
    (OwnerOrStaff ⟨none⟩ ["bob"]
        ⟨PyUser.user "alice" false false, "/rand"⟩ [("username", "bob")]).1 =
      .denyForbidden OwnerOrStaffMixin.permission_denied_message := by
  rw [ownerOrStaff_ordered_decision ⟨none⟩ ["bob"]
    ⟨PyUser.user "alice" false false, "/rand"⟩ [("username", "bob")]
    (by decide)]
  decide

/-- C3: when the looked-up owner exists and the requesting user is not the
owner, a staff user is allowed and exactly one audit record
`(get_username, path)` is emitted, while a non-staff user obtains
`denyForbidden` and no audit record is emitted. -/
theorem ownerOrStaff_audit_effect
    (m : OwnerOrStaffMixin) (objects : UserTable) (request : Request)
    (kwargs : Kwargs)
    (hex : usersFilterExists objects (kwargsGet kwargs m.get_owner_kwargs) =
      true)
    (hno : pyStrEqOpt request.user.get_username
      (kwargsGet kwargs m.get_owner_kwargs) = false) :
    (request.user.is_staff = true →
      OwnerOrStaff m objects request kwargs =
        (.allow, [(request.user.get_username, request.path)])) ∧
    (request.user.is_staff = false →
      OwnerOrStaff m objects request kwargs =
        (.denyForbidden OwnerOrStaffMixin.permission_denied_message, [])) := by
  rw [ownerOrStaff_spec]
  constructor <;> intro hs <;> simp [hex, hno, hs]

/-- C3 witness: staff user `staff1` on `bob`'s page is allowed with the one
audit record `(staff1, /rand)`. -/
theorem ownerOrStaff_audit_effect_witness :
    OwnerOrStaff ⟨none⟩ ["bob"]
        ⟨PyUser.user "staff1" true false, "/rand"⟩ [("username", "bob")] =
      (.allow, [("staff1", "/rand")]) :=
  (ownerOrStaff_audit_effect ⟨none⟩ ["bob"]
    ⟨PyUser.user "staff1" true false, "/rand"⟩ [("username", "bob")]
    (by decide) (by decide)).1 (by decide)

/-- C4: when the looked-up owner exists in the user table, `OwnerOnly`
answers `allow` exactly when the requesting user's name equals the owner
value, and otherwise `denyForbidden` with the not-the-owner
`permission_denied_message` (the spec's reason "not the owner"). -/
theorem ownerOnly_owner_decision
    (m : OwnerMixin) (objects : UserTable) (request : Request)
    (kwargs : Kwargs)
    (hex : usersFilterExists objects (kwargsGet kwargs m.get_owner_kwargs) =
      true) :
    OwnerOnly m objects request kwargs =
      if pyStrEqOpt request.user.get_username
          (kwargsGet kwargs m.get_owner_kwargs) then .allow
      else .denyForbidden OwnerMixin.permission_denied_message := by
  rw [ownerOnly_spec]
  simp [hex]

/-- C4 witness: `alice` on her own page is allowed. -/
theorem ownerOnly_owner_decision_witness :
    OwnerOnly ⟨none⟩ ["alice"]
        ⟨PyUser.user "alice" false false, "/rand"⟩ [("username", "alice")] =
      .allow := by
  rw [ownerOnly_owner_decision ⟨none⟩ ["alice"]
    ⟨PyUser.user "alice" false false, "/rand"⟩ [("username", "alice")]
    (by decide)]
  decide

/-- C5: `StaffOnly` answers `allow` exactly when the requesting user is
authenticated and staff (an anonymous user is never staff), and otherwise
`denyForbidden` with the not-a-staff-user `permission_denied_message` (the
spec's reason "not a staff user"). -/
theorem staffOnly_decision (request : Request) :
    StaffOnly request =
      if request.user.is_authenticated && request.user.is_staff then .allow
      else .denyForbidden StaffMixin.permission_denied_message := by
  cases request with
  | mk u p =>
    cases u <;>
      simp [StaffOnly, StaffMixin.test_func, dispatchTest,
        PyUser.is_staff, PyUser.is_authenticated]

/-- C6: `SuperuserOnly` answers `allow` exactly when the requesting user is
authenticated and a superuser (an anonymous user is never a superuser), and
otherwise `denyForbidden` with the not-a-superuser
`permission_denied_message` (the spec's reason "not a superuser"). -/
theorem superuserOnly_decision (request : Request) :
    SuperuserOnly request =
      if request.user.is_authenticated && request.user.is_superuser then
        .allow
      else .denyForbidden SuperuserMixin.permission_denied_message := by
  cases request with
  | mk u p =>
    cases u <;>
      simp [SuperuserOnly, SuperuserMixin.test_func, dispatchTest,
        PyUser.is_superuser, PyUser.is_authenticated]

/-- C7: the owner lookup key defaults to `"username"` when `owner_kwargs` is
unset and is the configured key otherwise, for both owner-based mixins; and
each policy's outcome depends on the kwargs only through the value looked up
at that key, so configuring a custom key changes which request field is read
and nothing else of the decision logic. -/
theorem owner_lookup_key_configuration
    (k : String) (mo₁ mo₂ : OwnerMixin) (ms₁ ms₂ : OwnerOrStaffMixin)
    (objects : UserTable) (request : Request) (kw₁ kw₂ : Kwargs)
    (ho : kwargsGet kw₁ mo₁.get_owner_kwargs =
      kwargsGet kw₂ mo₂.get_owner_kwargs)
    (hs : kwargsGet kw₁ ms₁.get_owner_kwargs =
      kwargsGet kw₂ ms₂.get_owner_kwargs) :
    OwnerMixin.get_owner_kwargs ⟨none⟩ = "username" ∧
    OwnerOrStaffMixin.get_owner_kwargs ⟨none⟩ = "username" ∧
    OwnerMixin.get_owner_kwargs ⟨some k⟩ = k ∧
    OwnerOrStaffMixin.get_owner_kwargs ⟨some k⟩ = k ∧
    OwnerOnly mo₁ objects request kw₁ = OwnerOnly mo₂ objects request kw₂ ∧
    OwnerOrStaff ms₁ objects request kw₁ =
      OwnerOrStaff ms₂ objects request kw₂ := by
  refine ⟨rfl, rfl, rfl, rfl, ?_, ?_⟩
  · rw [ownerOnly_spec, ownerOnly_spec, ho]
  · rw [ownerOrStaff_spec, ownerOrStaff_spec, hs]

/-- C7 witness: `OwnerOnly` configured with key `user` on kwargs binding
`user` decides as the default configuration does on kwargs binding
`username` to the same value. -/
theorem owner_lookup_key_configuration_witness :
    OwnerOnly ⟨some "user"⟩ ["bob"]
        ⟨PyUser.user "alice" false false, "/rand"⟩ [("user", "bob")] =
      OwnerOnly ⟨none⟩ ["bob"]
        ⟨PyUser.user "alice" false false, "/rand"⟩ [("username", "bob")] :=
  (owner_lookup_key_configuration "user" ⟨some "user"⟩ ⟨none⟩ ⟨some "user"⟩
    ⟨none⟩ ["bob"] ⟨PyUser.user "alice" false false, "/rand"⟩
    [("user", "bob")] [("username", "bob")]
    (by decide) (by decide)).2.2.2.2.1

/-- C8: every evaluation of the four policies is one of the three verdicts
`allow`, `denyForbidden` (with the class's message) or `denyNotFound` (with
the missing-user message), and `StaffOnly` and `SuperuserOnly` never answer
`denyNotFound`. -/
theorem policies_verdict_taxonomy
    (mo : OwnerMixin) (ms : OwnerOrStaffMixin) (objects : UserTable)
    (request : Request) (kwargs : Kwargs) :
    (StaffOnly request = .allow ∨
      StaffOnly request =
        .denyForbidden StaffMixin.permission_denied_message) ∧
    (SuperuserOnly request = .allow ∨
      SuperuserOnly request =
        .denyForbidden SuperuserMixin.permission_denied_message) ∧
    (StaffOnly request).isDenyNotFound = false ∧
    (SuperuserOnly request).isDenyNotFound = false ∧
    (OwnerOnly mo objects request kwargs = .allow ∨
      OwnerOnly mo objects request kwargs =
        .denyForbidden OwnerMixin.permission_denied_message ∨
      OwnerOnly mo objects request kwargs =
        .denyNotFound
          (userDoesNotExistMessage (kwargsGet kwargs mo.get_owner_kwargs))) ∧
    ((OwnerOrStaff ms objects request kwargs).1 = .allow ∨
      (OwnerOrStaff ms objects request kwargs).1 =
        .denyForbidden OwnerOrStaffMixin.permission_denied_message ∨
      (OwnerOrStaff ms objects request kwargs).1 =
        .denyNotFound
          (userDoesNotExistMessage (kwargsGet kwargs ms.get_owner_kwargs))) := by
  refine ⟨?_, ?_, ?_, ?_, ?_, ?_⟩
  · unfold StaffOnly dispatchTest
    cases ht : StaffMixin.test_func request <;> simp [ht]
  · unfold SuperuserOnly dispatchTest
    cases ht : SuperuserMixin.test_func request <;> simp [ht]
  · unfold StaffOnly dispatchTest
    cases ht : StaffMixin.test_func request <;>
      simp [ht, PolicyVerdict.isDenyNotFound]
  · unfold SuperuserOnly dispatchTest
    cases ht : SuperuserMixin.test_func request <;>
      simp [ht, PolicyVerdict.isDenyNotFound]
  · rw [ownerOnly_spec]
    cases he : usersFilterExists objects (kwargsGet kwargs mo.get_owner_kwargs)
    · simp [he]
    · cases hp : pyStrEqOpt request.user.get_username
          (kwargsGet kwargs mo.get_owner_kwargs) <;> simp [he, hp]
  · rw [ownerOrStaff_spec]
    cases he : usersFilterExists objects (kwargsGet kwargs ms.get_owner_kwargs)
    · simp [he]
    · cases hp : pyStrEqOpt request.user.get_username
          (kwargsGet kwargs ms.get_owner_kwargs) <;>
        cases hst : request.user.is_staff <;> simp [he, hp, hst]

/-- C9 counterexample: a user row whose username is the empty string makes
the claim fail: the anonymous user's `get_username()` is also `""`, so with
owner value `""` existing in the table both owner policies answer `allow`,
not `denyForbidden`. -/
theorem anonymous_empty_owner_allows :
    OwnerOnly ⟨none⟩ [""] ⟨PyUser.anonymous, "/rand"⟩ [("username", "")] =
      .allow ∧
    (OwnerOrStaff ⟨none⟩ [""] ⟨PyUser.anonymous, "/rand"⟩
      [("username", "")]).1 = .allow ∧
    usersFilterExists [""]
      (kwargsGet [("username", "")]
        (OwnerMixin.get_owner_kwargs ⟨none⟩)) = true := by
  refine ⟨?_, ?_, ?_⟩ <;> decide

/-- C9 (amended: the existing owner value differs from the anonymous user's
empty username): for the anonymous user and an existing owner value other
than `some ""`, `OwnerOnly` and `OwnerOrStaff` answer `denyForbidden` with
their `permission_denied_message`, not `denyNotFound` and not a separate
authentication error: the empty username fails the equality comparison and,
for `OwnerOrStaff`, the anonymous user is never staff. -/
theorem anonymous_existing_owner_forbidden
    (mo : OwnerMixin) (ms : OwnerOrStaffMixin) (objects : UserTable)
    (path : String) (kwargs : Kwargs)
    (hoex : usersFilterExists objects (kwargsGet kwargs mo.get_owner_kwargs) =
      true)
    (hone : kwargsGet kwargs mo.get_owner_kwargs ≠ some "")
    (hsex : usersFilterExists objects (kwargsGet kwargs ms.get_owner_kwargs) =
      true)
    (hsne : kwargsGet kwargs ms.get_owner_kwargs ≠ some "") :
    OwnerOnly mo objects ⟨PyUser.anonymous, path⟩ kwargs =
      .denyForbidden OwnerMixin.permission_denied_message ∧
    (OwnerOrStaff ms objects ⟨PyUser.anonymous, path⟩ kwargs).1 =
      .denyForbidden OwnerOrStaffMixin.permission_denied_message := by
  have ho : pyStrEqOpt (PyUser.get_username PyUser.anonymous)
      (kwargsGet kwargs mo.get_owner_kwargs) = false := by
    cases hk : kwargsGet kwargs mo.get_owner_kwargs with
    | none => rfl
    | some v =>
      simp only [pyStrEqOpt, PyUser.get_username]
      rw [hk] at hone
      simp only [beq_eq_false_iff_ne, ne_eq]
      intro hv
      exact hone (by rw [hv])
  have hsv : pyStrEqOpt (PyUser.get_username PyUser.anonymous)
      (kwargsGet kwargs ms.get_owner_kwargs) = false := by
    cases hk : kwargsGet kwargs ms.get_owner_kwargs with
    | none => rfl
    | some v =>
      simp only [pyStrEqOpt, PyUser.get_username]
      rw [hk] at hsne
      simp only [beq_eq_false_iff_ne, ne_eq]
      intro hv
      exact hsne (by rw [hv])
  constructor
  · rw [ownerOnly_spec]
    simp [hoex, ho]
  · rw [ownerOrStaff_spec]
    simp [hsex, hsv, PyUser.is_staff]

/-- C9 amended-claim witness: the anonymous user on existing `bob`'s page is
denied with the owner-or-staff message. -/
theorem anonymous_existing_owner_forbidden_witness :
    (OwnerOrStaff ⟨none⟩ ["bob"] ⟨PyUser.anonymous, "/rand"⟩
      [("username", "bob")]).1 =
      .denyForbidden OwnerOrStaffMixin.permission_denied_message :=
  (anonymous_existing_owner_forbidden ⟨none⟩ ⟨none⟩ ["bob"] "/rand"
    [("username", "bob")] (by decide) (by decide) (by decide) (by decide)).2

/-- C10: a staff user who is also the owner of the requested page (the owner
exists in the table) is allowed through the owner branch of `OwnerOrStaff`
and no audit record is emitted: the audit effect is confined to the
staff-but-not-owner branch. -/
theorem ownerOrStaff_staff_owner_no_audit
    (m : OwnerOrStaffMixin) (objects : UserTable) (request : Request)
    (kwargs : Kwargs)
    (hex : usersFilterExists objects (kwargsGet kwargs m.get_owner_kwargs) =
      true)
    (howner : pyStrEqOpt request.user.get_username
      (kwargsGet kwargs m.get_owner_kwargs) = true)
    (_hstaff : request.user.is_staff = true) :
    OwnerOrStaff m objects request kwargs = (.allow, []) := by
  rw [ownerOrStaff_spec]
  simp [hex, howner]

/-- C10 witness: staff user `staff1` on their own page is allowed with no
audit record. -/
theorem ownerOrStaff_staff_owner_no_audit_witness :
    OwnerOrStaff ⟨none⟩ ["staff1"]
        ⟨PyUser.user "staff1" true false, "/rand"⟩ [("username", "staff1")] =
      (.allow, []) :=
  ownerOrStaff_staff_owner_no_audit ⟨none⟩ ["staff1"]
    ⟨PyUser.user "staff1" true false, "/rand"⟩ [("username", "staff1")]
    (by decide) (by decide) (by decide)

end MultMixins
